import Mathlib

/-!
Shallow embedding of `SENN/scripts/main_mnist_clean.py` (repository lennertjansen/FACT).

Image tensors are modelled as flat lists of rationals (`Vec`); floating-point
arithmetic is idealised as exact rational/real arithmetic.  The trained
explainability model is abstracted as an `Explainer`: the script only ever uses
it through `expl(x)[0]` (the theta relevance vector) and
`expl.net.forward(x, h_options = -1)` (the concept-activation vector h(x)).
Randomness (`torch.randn`) is modelled by explicit streams of standard-normal
draws passed in as function parameters.
-/

namespace SENN

/-- A flattened tensor (the script views each MNIST image as `1×1×28×28`). -/
abbrev Vec := List ℚ

/-- Abstraction of the `gsenn_wrapper` explainer object: `theta` models
`expl(x)[0]` and `h` models `expl.net.forward(x, h_options = -1)` squeezed to a
vector. -/
structure Explainer where
  theta : Vec → Vec
  h : Vec → Vec

/-- The `deps` rule of `eval_stability_2`: `np.multiply(theta, h_x)` when
`our_method` is set, plain `theta` otherwise. -/
def deps (our_method : Bool) (theta hx : Vec) : Vec :=
  if our_method then List.zipWith (fun a b => a * b) theta hx else theta

/-- Coefficient-wise difference `deps - deps_noise` (numpy array subtraction
on same-shape 1-D arrays). -/
def vsub (u v : Vec) : Vec := List.zipWith (fun a b => a - b) u v

/-- Sum of squared entries (the radicand of the Euclidean norm). -/
def sumSq (v : Vec) : ℚ := (v.map (fun a => a ^ 2)).sum

/-- `np.linalg.norm` on a 1-D array: the Euclidean (2-) norm. -/
noncomputable def normR (v : Vec) : ℝ := Real.sqrt ((sumSq v : ℚ) : ℝ)

/-- The noise tensor `scale * torch.randn(x.size())`: `g` is the stream of
standard-normal draws for this loop iteration, and the tensor has exactly the
shape of `x`. -/
def noiseFor (scale : ℚ) (g : ℕ → ℚ) (x : Vec) : Vec :=
  (List.range x.length).map (fun j => scale * g j)

/-- One iteration of the loop body of `eval_stability_2` (lines 130-149 of
`main_mnist_clean.py`): baseline deps at sample `i`, noised deps evaluated at
the noise tensor alone, and the recorded Euclidean distance between them. -/
noncomputable def recordedDistance (expl : Explainer) (dataset : ℕ → Vec)
    (g : ℕ → ℕ → ℚ) (scale : ℚ) (our_method : Bool) (i : ℕ) : ℝ :=
  let x := dataset i
  let hx := expl.h x
  let th := expl.theta x
  let deps0 := deps our_method th hx
  let noise := noiseFor scale (g i) x
  let hxn := expl.h noise
  let thn := expl.theta noise
  let deps_noise := deps our_method thn hxn
  normR (vsub deps0 deps_noise)

/-- `eval_stability_2`: loops `i` over `range(10000)`, appending the recorded
distance for each test sample in order. -/
noncomputable def eval_stability_2 (expl : Explainer) (dataset : ℕ → Vec)
    (g : ℕ → ℕ → ℚ) (scale : ℚ) (our_method : Bool) : List ℝ :=
  (List.range 10000).map (recordedDistance expl dataset g scale our_method)

lemma eval_stability_2_length (expl : Explainer) (dataset : ℕ → Vec)
    (g : ℕ → ℕ → ℚ) (scale : ℚ) (our_method : Bool) :
    (eval_stability_2 expl dataset g scale our_method).length = 10000 := by
  simp [eval_stability_2]

lemma eval_stability_2_getElem (expl : Explainer) (dataset : ℕ → Vec)
    (g : ℕ → ℕ → ℚ) (scale : ℚ) (our_method : Bool) (i : ℕ) (hi : i < 10000) :
    (eval_stability_2 expl dataset g scale our_method)[i]? =
      some (recordedDistance expl dataset g scale our_method i) := by
  simp [eval_stability_2, List.getElem?_range, hi]

lemma noiseFor_zero (g : ℕ → ℚ) (x : Vec) :
    noiseFor 0 g x = List.replicate x.length 0 := by
  simp [noiseFor]

/-- A tiny concrete explainer used to instantiate general theorems. -/
def wExpl : Explainer := ⟨fun v => v, fun v => v⟩

/-- A tiny concrete dataset: sample `k` is the one-entry tensor `[k+1]`. -/
def wData : ℕ → Vec := fun k => [(k : ℚ) + 1]

/-- A degenerate standard-normal stream (all draws zero). -/
def wG : ℕ → ℕ → ℚ := fun _ _ => 0

/-- A degenerate per-call randomness stream for the noise sweep. -/
def wStream : ℕ → ℕ → ℕ → ℚ := fun _ _ _ => 0

/-- C1: for every sample index `i < 10000` and noise scale `σ ≥ 0`, the
Stability Evaluator records `distance_i = ‖deps - deps_noise‖₂`, where
`deps = theta(x) ⊙ h(x)` when the variant flag is set and `deps = theta(x)`
otherwise, and `deps_noise` follows the same rule with `theta` and `h`
evaluated at the noise tensor alone (scale times a standard-normal tensor
shaped like `x`), not at `x + noise`. -/
theorem eval_stability_two_records (expl : Explainer) (dataset : ℕ → Vec)
    (g : ℕ → ℕ → ℚ) (scale : ℚ) (our_method : Bool) (i : ℕ)
    (hi : i < 10000) (hs : 0 ≤ scale) :
    (eval_stability_2 expl dataset g scale our_method)[i]? =
      some (normR (vsub
        (deps our_method (expl.theta (dataset i)) (expl.h (dataset i)))
        (deps our_method (expl.theta (noiseFor scale (g i) (dataset i)))
          (expl.h (noiseFor scale (g i) (dataset i)))))) := by
  rw [eval_stability_2_getElem expl dataset g scale our_method i hi]
  rfl

/-- Witness for C1 at concrete inputs. -/
theorem eval_stability_two_records_witness :
    (0 : ℕ) < 10000 ∧ (0 : ℚ) ≤ 0 ∧
    (eval_stability_2 wExpl wData wG 0 true)[0]? =
      some (normR (vsub
        (deps true (wExpl.theta (wData 0)) (wExpl.h (wData 0)))
        (deps true (wExpl.theta (noiseFor 0 (wG 0) (wData 0)))
          (wExpl.h (noiseFor 0 (wG 0) (wData 0)))))) :=
  ⟨by decide, le_refl 0,
    eval_stability_two_records wExpl wData wG 0 true 0 (by decide) (le_refl 0)⟩

/-- C2: at scale `σ = 0` the noise tensor handed to the model is identically
zero, so the recorded zero-noise distance for sample `x` is the fixed
reference distance `‖deps(x) - deps(zero)‖₂`; moreover that distance is not
forced to be zero (last conjunct exhibits a run with a nonzero entry). -/
theorem eval_stability_zero_noise (expl : Explainer) (dataset : ℕ → Vec)
    (g : ℕ → ℕ → ℚ) (our_method : Bool) (i : ℕ) (hi : i < 10000) :
    noiseFor 0 (g i) (dataset i) = List.replicate (dataset i).length 0
    ∧ (eval_stability_2 expl dataset g 0 our_method)[i]? =
        some (normR (vsub
          (deps our_method (expl.theta (dataset i)) (expl.h (dataset i)))
          (deps our_method
            (expl.theta (List.replicate (dataset i).length 0))
            (expl.h (List.replicate (dataset i).length 0)))))
    ∧ ∃ (e : Explainer) (d : ℕ → Vec) (g2 : ℕ → ℕ → ℚ),
        (eval_stability_2 e d g2 0 false)[0]? ≠ some 0 := by
  refine ⟨noiseFor_zero (g i) (dataset i), ?_, ?_⟩
  · rw [eval_stability_2_getElem expl dataset g 0 our_method i hi]
    show some (recordedDistance expl dataset g 0 our_method i) = _
    rw [recordedDistance]
    rw [noiseFor_zero (g i) (dataset i)]
  · refine ⟨wExpl, wData, wG, ?_⟩
    rw [eval_stability_2_getElem wExpl wData wG 0 false 0 (by decide)]
    intro hcontra
    have h1 : recordedDistance wExpl wData wG 0 false 0 = (0 : ℝ) :=
      Option.some_injective ℝ hcontra
    rw [recordedDistance] at h1
    simp [wExpl, wData, wG, deps, noiseFor, vsub, normR, sumSq] at h1

/-- Witness for C2 at concrete inputs. -/
theorem eval_stability_zero_noise_witness :
    (0 : ℕ) < 10000 ∧
    (noiseFor 0 (wG 0) (wData 0) = List.replicate (wData 0).length 0
      ∧ (eval_stability_2 wExpl wData wG 0 false)[0]? =
          some (normR (vsub
            (deps false (wExpl.theta (wData 0)) (wExpl.h (wData 0)))
            (deps false
              (wExpl.theta (List.replicate (wData 0).length 0))
              (wExpl.h (List.replicate (wData 0).length 0)))))
      ∧ ∃ (e : Explainer) (d : ℕ → Vec) (g2 : ℕ → ℕ → ℚ),
          (eval_stability_2 e d g2 0 false)[0]? ≠ some 0) :=
  ⟨by decide, eval_stability_zero_noise wExpl wData wG false 0 (by decide)⟩

/-- C5: for every noise scale and either variant flag, the distance sequence
has length exactly 10000 and every position `i < 10000` holds the recorded
distance of test sample `i` (no element is absent). -/
theorem eval_stability_total (expl : Explainer) (dataset : ℕ → Vec)
    (g : ℕ → ℕ → ℚ) (scale : ℚ) (our_method : Bool) (hs : 0 ≤ scale) :
    (eval_stability_2 expl dataset g scale our_method).length = 10000
    ∧ ∀ i, i < 10000 →
        (eval_stability_2 expl dataset g scale our_method)[i]? =
          some (recordedDistance expl dataset g scale our_method i) := by
  refine ⟨eval_stability_2_length expl dataset g scale our_method, ?_⟩
  intro i hi
  exact eval_stability_2_getElem expl dataset g scale our_method i hi

/-- Witness for C5 at concrete inputs. -/
theorem eval_stability_total_witness :
    (0 : ℚ) ≤ 0 ∧ (0 : ℕ) < 10000 ∧
    (eval_stability_2 wExpl wData wG 0 false).length = 10000 ∧
    (eval_stability_2 wExpl wData wG 0 false)[0]? =
      some (recordedDistance wExpl wData wG 0 false 0) :=
  ⟨le_refl 0, by decide,
    (eval_stability_total wExpl wData wG 0 false (le_refl 0)).1,
    (eval_stability_total wExpl wData wG 0 false (le_refl 0)).2 0 (by decide)⟩

/-- `plt.hist(values, bins)`: `bins` equal-width bins over `[min, max]`; every
bin is half-open except the last, which also includes the right endpoint.
Returns the per-bin counts (always a list of length `bins`). -/
def histCounts (values : List ℚ) (bins : ℕ) : List ℕ :=
  let lo := values.min?.getD 0
  let hi := values.max?.getD 0
  let w := (hi - lo) / (bins : ℚ)
  (List.range bins).map (fun (j : ℕ) =>
    values.countP (fun v =>
      decide (lo + (j : ℚ) * w ≤ v) &&
        (if j + 1 = bins then decide (v ≤ hi)
         else decide (v < lo + ((j : ℚ) + 1) * w))))

lemma histCounts_length (values : List ℚ) (bins : ℕ) :
    (histCounts values bins).length = bins := by
  simp only [histCounts]
  rw [List.length_map, List.length_range]

/-- `plot_distribution_h` (lines 153-189): iterates over 10000 test points,
collects per-sample vectors selected by `plot_type` (appends nothing on an
unrecognised type), flattens them into one pooled list of scalars
(`itertools.chain.from_iterable`), and bins the pool into a fixed 20-bin
histogram.  Returns the pooled values together with the histogram counts. -/
def plot_distribution_h (expl : Explainer) (dataset : ℕ → Vec)
    (plot_type : String) : List ℚ × List ℕ :=
  let values :=
    ((List.range 10000).map (fun i =>
      let x := dataset i
      if plot_type = "h(x)" then expl.h x
      else if plot_type = "theta(x)" then expl.theta x
      else if plot_type = "theta(x)h(x)" then
        List.zipWith (fun a b => a * b) (expl.theta x) (expl.h x)
      else [])).flatten
  (values, histCounts values 20)

/-- C7: the histogram report pools, over 10000 test points, the quantity
selected by `plot_type` — `h(x)`, `theta(x)`, or the element-wise product
`theta(x)·h(x)` — flattening all per-sample vectors into one collection of
scalars, and its histogram always has exactly 20 bins. -/
theorem plot_distribution_pools_and_bins (expl : Explainer)
    (dataset : ℕ → Vec) :
    (plot_distribution_h expl dataset "h(x)").1
      = ((List.range 10000).map (fun i => expl.h (dataset i))).flatten
    ∧ (plot_distribution_h expl dataset "theta(x)").1
      = ((List.range 10000).map (fun i => expl.theta (dataset i))).flatten
    ∧ (plot_distribution_h expl dataset "theta(x)h(x)").1
      = ((List.range 10000).map (fun i =>
          List.zipWith (fun a b => a * b)
            (expl.theta (dataset i)) (expl.h (dataset i)))).flatten
    ∧ ∀ pt : String, (plot_distribution_h expl dataset pt).2.length = 20 := by
  refine ⟨?_, ?_, ?_, ?_⟩
  · simp [plot_distribution_h]
  · simp [plot_distribution_h]
  · simp [plot_distribution_h]
  · intro pt
    simp only [plot_distribution_h]
    exact histCounts_length _ 20

/-- `np.arange(start, stop, step)`: `⌈(stop - start) / step⌉` evenly spaced
values beginning at `start`. -/
def arangeQ (start stop step : ℚ) : List ℚ :=
  (List.range (⌈(stop - start) / step⌉).toNat).map
    (fun (i : ℕ) => start + (i : ℚ) * step)

/-- The noise-scale sweep of `main` (line 280): `np.arange(0, 0.21, 0.02)`,
i.e. `0.00, 0.02, …, 0.20`. -/
def noisesMain : List ℚ := arangeQ 0 (21 / 100) (2 / 100)

/-- The sweep loop of `main` (lines 282-286): for each scale, run
`eval_stability_2` once with `our_method = False` and once with
`our_method = True`, recording the two distance lists under the scale key.
`stream k` is the randomness consumed by the `k`-th `eval_stability_2` call. -/
noncomputable def noiseSweepLoop (expl : Explainer) (dataset : ℕ → Vec)
    (stream : ℕ → ℕ → ℕ → ℚ) :
    List ℚ → ℕ → List (ℚ × List ℝ) × List (ℚ × List ℝ)
  | [], _ => ([], [])
  | σ :: rest, k =>
    let distances := eval_stability_2 expl dataset (stream k) σ false
    let distances_2 := eval_stability_2 expl dataset (stream (k + 1)) σ true
    let tail := noiseSweepLoop expl dataset stream rest (k + 2)
    ((σ, distances) :: tail.1, (σ, distances_2) :: tail.2)

/-- The two distance dictionaries built by the sweep, keyed by noise scale. -/
noncomputable def noiseSweep (expl : Explainer) (dataset : ℕ → Vec)
    (stream : ℕ → ℕ → ℕ → ℚ) (noises : List ℚ) :
    List (ℚ × List ℝ) × List (ℚ × List ℝ) :=
  noiseSweepLoop expl dataset stream noises 0

lemma noiseSweepLoop_nil (expl : Explainer) (dataset : ℕ → Vec)
    (stream : ℕ → ℕ → ℕ → ℚ) (k : ℕ) :
    noiseSweepLoop expl dataset stream [] k = ([], []) := rfl

lemma noiseSweepLoop_cons (expl : Explainer) (dataset : ℕ → Vec)
    (stream : ℕ → ℕ → ℕ → ℚ) (σ : ℚ) (rest : List ℚ) (k : ℕ) :
    noiseSweepLoop expl dataset stream (σ :: rest) k =
      ((σ, eval_stability_2 expl dataset (stream k) σ false) ::
          (noiseSweepLoop expl dataset stream rest (k + 2)).1,
        (σ, eval_stability_2 expl dataset (stream (k + 1)) σ true) ::
          (noiseSweepLoop expl dataset stream rest (k + 2)).2) := rfl

lemma noiseSweepLoop_fst_keys (expl : Explainer) (dataset : ℕ → Vec)
    (stream : ℕ → ℕ → ℕ → ℚ) :
    ∀ (σs : List ℚ) (k : ℕ),
      ((noiseSweepLoop expl dataset stream σs k).1).map Prod.fst = σs := by
  intro σs
  induction σs with
  | nil => intro k; rw [noiseSweepLoop_nil]; rfl
  | cons σ rest ih =>
    intro k
    rw [noiseSweepLoop_cons, List.map_cons, ih (k + 2)]

lemma noiseSweepLoop_snd_keys (expl : Explainer) (dataset : ℕ → Vec)
    (stream : ℕ → ℕ → ℕ → ℚ) :
    ∀ (σs : List ℚ) (k : ℕ),
      ((noiseSweepLoop expl dataset stream σs k).2).map Prod.fst = σs := by
  intro σs
  induction σs with
  | nil => intro k; rw [noiseSweepLoop_nil]; rfl
  | cons σ rest ih =>
    intro k
    rw [noiseSweepLoop_cons, List.map_cons, ih (k + 2)]

lemma noiseSweepLoop_fst_lens (expl : Explainer) (dataset : ℕ → Vec)
    (stream : ℕ → ℕ → ℕ → ℚ) :
    ∀ (σs : List ℚ) (k : ℕ),
      ((noiseSweepLoop expl dataset stream σs k).1).map (fun p => p.2.length)
        = σs.map (fun _ => 10000) := by
  intro σs
  induction σs with
  | nil => intro k; rw [noiseSweepLoop_nil]; rfl
  | cons σ rest ih =>
    intro k
    rw [noiseSweepLoop_cons]
    simp only [List.map_cons]
    rw [eval_stability_2_length expl dataset (stream k) σ false, ih (k + 2)]

lemma noiseSweepLoop_snd_lens (expl : Explainer) (dataset : ℕ → Vec)
    (stream : ℕ → ℕ → ℕ → ℚ) :
    ∀ (σs : List ℚ) (k : ℕ),
      ((noiseSweepLoop expl dataset stream σs k).2).map (fun p => p.2.length)
        = σs.map (fun _ => 10000) := by
  intro σs
  induction σs with
  | nil => intro k; rw [noiseSweepLoop_nil]; rfl
  | cons σ rest ih =>
    intro k
    rw [noiseSweepLoop_cons]
    simp only [List.map_cons]
    rw [eval_stability_2_length expl dataset (stream (k + 1)) σ true, ih (k + 2)]

lemma noiseSweep_def (expl : Explainer) (dataset : ℕ → Vec)
    (stream : ℕ → ℕ → ℕ → ℚ) (noises : List ℚ) :
    noiseSweep expl dataset stream noises =
      noiseSweepLoop expl dataset stream noises 0 := rfl

lemma noiseSweep_keys (expl : Explainer) (dataset : ℕ → Vec)
    (stream : ℕ → ℕ → ℕ → ℚ) (noises : List ℚ) :
    ((noiseSweep expl dataset stream noises).1).map Prod.fst = noises
    ∧ ((noiseSweep expl dataset stream noises).2).map Prod.fst = noises := by
  rw [noiseSweep_def]
  exact ⟨noiseSweepLoop_fst_keys expl dataset stream noises 0,
    noiseSweepLoop_snd_keys expl dataset stream noises 0⟩

lemma noiseSweep_entry_len_fst (expl : Explainer) (dataset : ℕ → Vec)
    (stream : ℕ → ℕ → ℕ → ℚ) (noises : List ℚ) (j : ℕ)
    (hj : j < noises.length) :
    ((noiseSweep expl dataset stream noises).1[j]?).map
      (fun p => p.2.length) = some 10000 := by
  have h2 := congrArg (fun l => l[j]?)
    (noiseSweepLoop_fst_lens expl dataset stream noises 0)
  simp only [List.getElem?_map] at h2
  rw [noiseSweep_def, h2, List.getElem?_eq_getElem hj]
  rfl

lemma noiseSweep_entry_len_snd (expl : Explainer) (dataset : ℕ → Vec)
    (stream : ℕ → ℕ → ℕ → ℚ) (noises : List ℚ) (j : ℕ)
    (hj : j < noises.length) :
    ((noiseSweep expl dataset stream noises).2[j]?).map
      (fun p => p.2.length) = some 10000 := by
  have h2 := congrArg (fun l => l[j]?)
    (noiseSweepLoop_snd_lens expl dataset stream noises 0)
  simp only [List.getElem?_map] at h2
  rw [noiseSweep_def, h2, List.getElem?_eq_getElem hj]
  rfl

lemma arange_count_main : (⌈((21 / 100 : ℚ) - 0) / (2 / 100 : ℚ)⌉).toNat = 11 := by
  have h : ((21 / 100 : ℚ) - 0) / (2 / 100 : ℚ) = 21 / 2 := by norm_num
  rw [h]
  have h2 : (⌈(21 : ℚ) / 2⌉ : ℤ) = 11 := by
    rw [Int.ceil_eq_iff]
    constructor <;> norm_num
  rw [h2]
  rfl

lemma noisesMain_eq :
    noisesMain = [0, 2 / 100, 4 / 100, 6 / 100, 8 / 100, 10 / 100,
      12 / 100, 14 / 100, 16 / 100, 18 / 100, 20 / 100] := by
  simp only [noisesMain, arangeQ]
  rw [arange_count_main]
  simp [List.range_succ]
  norm_num

lemma noisesMain_length : noisesMain.length = 11 := by
  rw [noisesMain_eq]
  rfl

/-- C6: over the increasing scale sequence `0.00, 0.02, …, 0.20`, the sweep
runs the Stability Evaluator twice per scale — one dictionary per variant —
and in each dictionary every swept scale is a key bound to a length-10000
distance sequence; for the scale list `[0.0, 0.1]` each variant's dictionary
has exactly 2 keys, each bound to a length-10000 sequence. -/
theorem noise_sweep_contract (expl : Explainer) (dataset : ℕ → Vec)
    (stream : ℕ → ℕ → ℕ → ℚ) :
    noisesMain = [0, 2 / 100, 4 / 100, 6 / 100, 8 / 100, 10 / 100,
      12 / 100, 14 / 100, 16 / 100, 18 / 100, 20 / 100]
    ∧ ((noiseSweep expl dataset stream noisesMain).1).map Prod.fst = noisesMain
    ∧ ((noiseSweep expl dataset stream noisesMain).2).map Prod.fst = noisesMain
    ∧ (∀ j, j < noisesMain.length →
        ((noiseSweep expl dataset stream noisesMain).1[j]?).map
            (fun p => p.2.length) = some 10000
          ∧ ((noiseSweep expl dataset stream noisesMain).2[j]?).map
              (fun p => p.2.length) = some 10000)
    ∧ (noiseSweep expl dataset stream [0, 1 / 10]).1.length = 2
    ∧ (noiseSweep expl dataset stream [0, 1 / 10]).2.length = 2
    ∧ (∀ j, j < 2 →
        ((noiseSweep expl dataset stream [0, 1 / 10]).1[j]?).map
            (fun p => p.2.length) = some 10000
          ∧ ((noiseSweep expl dataset stream [0, 1 / 10]).2[j]?).map
              (fun p => p.2.length) = some 10000) := by
  refine ⟨noisesMain_eq,
    (noiseSweep_keys expl dataset stream noisesMain).1,
    (noiseSweep_keys expl dataset stream noisesMain).2, ?_, ?_, ?_, ?_⟩
  · intro j hj
    exact ⟨noiseSweep_entry_len_fst expl dataset stream noisesMain j hj,
      noiseSweep_entry_len_snd expl dataset stream noisesMain j hj⟩
  · have h2 := congrArg List.length
      (noiseSweep_keys expl dataset stream [0, 1 / 10]).1
    rw [List.length_map] at h2
    rw [h2]
    rfl
  · have h2 := congrArg List.length
      (noiseSweep_keys expl dataset stream [0, 1 / 10]).2
    rw [List.length_map] at h2
    rw [h2]
    rfl
  · intro j hj
    exact ⟨noiseSweep_entry_len_fst expl dataset stream [0, 1 / 10] j hj,
      noiseSweep_entry_len_snd expl dataset stream [0, 1 / 10] j hj⟩

/-- Witness for C6 at concrete inputs. -/
theorem noise_sweep_contract_witness :
    (0 : ℕ) < noisesMain.length ∧ (0 : ℕ) < 2
    ∧ ((noiseSweep wExpl wData wStream noisesMain).1[0]?).map
        (fun p => p.2.length) = some 10000
    ∧ ((noiseSweep wExpl wData wStream [0, 1 / 10]).2[0]?).map
        (fun p => p.2.length) = some 10000 :=
  ⟨by rw [noisesMain_length]; decide, by decide,
    ((noise_sweep_contract wExpl wData wStream).2.2.2.1 0
      (by rw [noisesMain_length]; decide)).1,
    ((noise_sweep_contract wExpl wData wStream).2.2.2.2.2.2 0 (by decide)).2⟩

/-- Python-style runtime errors that `main`'s configuration handling can
surface. -/
inductive PyError
  | nameError (missing : String)
  | valueError (msg : String)
deriving DecidableEq

/-- The trainer objects this module can actually construct.  Line 50 of the
script imports only HLearningClassTrainer, VanillaClassTrainer and
GradPenaltyTrainer from SENN.trainers; CLPenaltyTrainer is referenced on
line 235 but never imported, so no CLPenaltyTrainer value can be produced
by this module. -/
inductive Trainer
  | VanillaClassTrainer
  | GradPenaltyTrainer (typ : ℕ)
deriving DecidableEq

/-- The trainer dispatch on `args.theta_reg_type` (lines 226-237):
unreg/none/None give a VanillaClassTrainer; grad1/grad2/grad3 give a
GradPenaltyTrainer with typ 1/2/3; the crosslip branch evaluates the name
`CLPenaltyTrainer`, which the module never imports, so in Python it raises
NameError before any trainer is constructed; any other value raises
`ValueError('Unrecoginzed theta_reg_type')` (typo as in the source). -/
def theta_reg_dispatch (theta_reg_type : Option String) : Except PyError Trainer :=
  if theta_reg_type = some ("unreg") ∨ theta_reg_type = some ("none")
      ∨ theta_reg_type = none then
    Except.ok Trainer.VanillaClassTrainer
  else if theta_reg_type = some ("grad1") then
    Except.ok (Trainer.GradPenaltyTrainer 1)
  else if theta_reg_type = some ("grad2") then
    Except.ok (Trainer.GradPenaltyTrainer 2)
  else if theta_reg_type = some ("grad3") then
    Except.ok (Trainer.GradPenaltyTrainer 3)
  else if theta_reg_type = some ("crosslip") then
    Except.error (PyError.nameError ("CLPenaltyTrainer"))
  else
    Except.error (PyError.valueError ("Unrecoginzed theta_reg_type"))

/-- C3 (code bug): the recognized values behave as claimed — unreg/none/None
give VanillaClassTrainer, grad1/grad2/grad3 give GradPenaltyTrainer with typ
1/2/3, and unrecognized values raise ValueError — but crosslip does NOT
construct a CLPenaltyTrainer without raising: the module never imports that
name, so the branch raises NameError. -/
theorem theta_reg_dispatch_eval :
    theta_reg_dispatch (some ("unreg")) = Except.ok Trainer.VanillaClassTrainer
    ∧ theta_reg_dispatch (some ("none")) = Except.ok Trainer.VanillaClassTrainer
    ∧ theta_reg_dispatch none = Except.ok Trainer.VanillaClassTrainer
    ∧ theta_reg_dispatch (some ("grad1")) = Except.ok (Trainer.GradPenaltyTrainer 1)
    ∧ theta_reg_dispatch (some ("grad2")) = Except.ok (Trainer.GradPenaltyTrainer 2)
    ∧ theta_reg_dispatch (some ("grad3")) = Except.ok (Trainer.GradPenaltyTrainer 3)
    ∧ theta_reg_dispatch (some ("crosslip"))
        = Except.error (PyError.nameError ("CLPenaltyTrainer"))
    ∧ theta_reg_dispatch (some ("bogus"))
        = Except.error (PyError.valueError ("Unrecoginzed theta_reg_type")) :=
  ⟨rfl, rfl, rfl, rfl, rfl, rfl, rfl, rfl⟩

/-- Where the `model` variable of `main` last came from. -/
inductive ModelSrc
  | constructed
  | fromCheckpoint
deriving DecidableEq

/-- The model/trainer setup of `main` (lines 219-249), abstracted to the
observable decisions: the final model source, the final trainer, how many
times the checkpoint file `model_best.pth.tar` was loaded, and whether
training ran.  If `load_model` the checkpoint is loaded and replaces the
model; then the trainer is dispatched on `theta_reg_type` (any error there
aborts); then, only when `not load_model and train`, training runs with that
trainer; otherwise the checkpoint is loaded (again) and both model and
trainer are replaced, the trainer by a VanillaClassTrainer. -/
def model_setup (load_model train : Bool) (theta_reg_type : Option String) :
    Except PyError (ModelSrc × Trainer × ℕ × Bool) :=
  let loads1 : ℕ := if load_model then 1 else 0
  let model1 : ModelSrc :=
    if load_model then ModelSrc.fromCheckpoint else ModelSrc.constructed
  match theta_reg_dispatch theta_reg_type with
  | Except.error e => Except.error e
  | Except.ok tr =>
    if !load_model && train then
      Except.ok (model1, tr, loads1, true)
    else
      Except.ok (ModelSrc.fromCheckpoint, Trainer.VanillaClassTrainer,
        loads1 + 1, false)

/-- C10: unless `load_model` is false and `train` is true, `main` loads the
checkpoint and replaces both the model and the previously dispatched trainer
with a VanillaClassTrainer (so the `theta_reg_type` trainer takes effect only
when training runs); with `load_model` true the checkpoint is loaded twice
and the dispatched trainer is discarded. -/
theorem model_setup_replaces_trainer (load_model train : Bool)
    (t : Option String) (tr : Trainer)
    (hok : theta_reg_dispatch t = Except.ok tr)
    (h : ¬(load_model = false ∧ train = true)) :
    model_setup load_model train t =
      Except.ok (ModelSrc.fromCheckpoint, Trainer.VanillaClassTrainer,
        (if load_model then 2 else 1), false)
    ∧ (load_model = true →
        model_setup load_model train t =
          Except.ok (ModelSrc.fromCheckpoint, Trainer.VanillaClassTrainer,
            2, false)) := by
  cases load_model with
  | false =>
    cases train with
    | false => simp [model_setup, hok]
    | true => exact absurd ⟨rfl, rfl⟩ h
  | true =>
    cases train with
    | false => simp [model_setup, hok]
    | true => simp [model_setup, hok]

/-- Witness for C10 at concrete inputs. -/
theorem model_setup_replaces_trainer_witness :
    theta_reg_dispatch (some ("grad1")) = Except.ok (Trainer.GradPenaltyTrainer 1)
    ∧ ¬(true = false ∧ true = true)
    ∧ model_setup true true (some ("grad1")) =
        Except.ok (ModelSrc.fromCheckpoint, Trainer.VanillaClassTrainer,
          2, false) :=
  ⟨rfl, by decide, by
    have h := (model_setup_replaces_trainer true true (some ("grad1"))
      (Trainer.GradPenaltyTrainer 1) rfl (by decide)).2 rfl
    exact h⟩

/-- The index-splitting logic of `load_mnist_data` (lines 76-95).
`np_shuffle` stands for the in-place `np.random.shuffle` seeded with
`random_seed`, abstracted as the permutation it applies to a list.  Faithful
to the source order: the train/validation slices are taken from `indices`
BEFORE the shuffle, and the shuffle then acts on the separate `indices` list
(Python slices are copies), leaving the returned split untouched.  The test
set is never split. -/
def load_mnist_data_split (num_train : ℕ) (valid_size : ℚ) (shuffle : Bool)
    (np_shuffle : List ℕ → List ℕ) : List ℕ × List ℕ :=
  let indices := List.range num_train
  let split := (⌊valid_size * (num_train : ℚ)⌋).toNat
  let train_idx := List.drop split indices
  let valid_idx := List.take split indices
  let _shuffled := if shuffle then np_shuffle indices else indices
  (train_idx, valid_idx)

/-- The split rule stated by the claim, written for comparison with
`load_mnist_data_split`: shuffle the indices under the seed first (when
`shuffle` is true), then take the first `floor(valid_size * num_train)` of
the resulting order as the validation set and the rest as the training
set. -/
def load_mnist_data_split_claimed (num_train : ℕ) (valid_size : ℚ)
    (shuffle : Bool) (np_shuffle : List ℕ → List ℕ) : List ℕ × List ℕ :=
  let indices := List.range num_train
  let shuffled := if shuffle then np_shuffle indices else indices
  let split := (⌊valid_size * (num_train : ℚ)⌋).toNat
  (List.drop split shuffled, List.take split shuffled)

/-- C4 (code bug): the code slices the index list into train/validation
before shuffling, so the seeded shuffle never influences the returned split:
the result is the same for every shuffle permutation, and with 10 samples,
validation fraction 1/10 and a shuffle that reverses the indices, the code
yields validation set `[0]` while the claimed shuffle-then-split rule yields
validation set `[9]`. -/
theorem load_mnist_split_ignores_shuffle :
    (∀ (num_train : ℕ) (valid_size : ℚ) (f g : List ℕ → List ℕ),
        load_mnist_data_split num_train valid_size true f
          = load_mnist_data_split num_train valid_size true g)
    ∧ load_mnist_data_split 10 (1 / 10) true
        (fun l => l.reverse) = ([1, 2, 3, 4, 5, 6, 7, 8, 9], [0])
    ∧ load_mnist_data_split_claimed 10 (1 / 10) true
        (fun l => l.reverse) = ([8, 7, 6, 5, 4, 3, 2, 1, 0], [9]) := by
  refine ⟨fun _ _ _ _ => rfl, ?_, ?_⟩
  · have hsplit : ((⌊(1 / 10 : ℚ) * ((10 : ℕ) : ℚ)⌋).toNat) = 1 := by
      norm_num
    simp only [load_mnist_data_split, hsplit]
    rfl
  · have hsplit : ((⌊(1 / 10 : ℚ) * ((10 : ℕ) : ℚ)⌋).toNat) = 1 := by
      norm_num
    simp only [load_mnist_data_split_claimed, hsplit]
    rfl

/-- `np.mean` on a 1-D array. -/
noncomputable def np_mean (l : List ℝ) : ℝ := l.sum / l.length

/-- `np.std` on a 1-D array (population standard deviation, `ddof = 0`). -/
noncomputable def np_std (l : List ℝ) : ℝ :=
  Real.sqrt ((l.map (fun x => (x - np_mean l) ^ 2)).sum / l.length)

/-- `[np.mean(distances[noise]) for noise in noises]` (lines 301 and 307):
look each swept scale up in the distance dictionary and take the mean of its
sequence. -/
noncomputable def aggregateMeans (d : List (ℚ × List ℝ)) (noises : List ℚ) :
    List ℝ :=
  noises.map (fun σ => np_mean ((d.lookup σ).getD []))

/-- `[np.std(distances[noise]) for noise in noises]` (lines 302 and 308). -/
noncomputable def aggregateStds (d : List (ℚ × List ℝ)) (noises : List ℚ) :
    List ℝ :=
  noises.map (fun σ => np_std ((d.lookup σ).getD []))

/-- C8: per-scale aggregation computes one mean and one standard deviation
per swept scale for each variant, and on the constant distance sequence
`[5, 5, 5, 5]` it yields mean 5 and standard deviation 0. -/
theorem aggregation_mean_std (d : List (ℚ × List ℝ)) (noises : List ℚ) :
    (aggregateMeans d noises).length = noises.length
    ∧ (aggregateStds d noises).length = noises.length
    ∧ np_mean [5, 5, 5, 5] = 5
    ∧ np_std [5, 5, 5, 5] = 0
    ∧ aggregateMeans [(0, [5, 5, 5, 5])] [0] = [5]
    ∧ aggregateStds [(0, [5, 5, 5, 5])] [0] = [0] := by
  have hmean : np_mean [5, 5, 5, 5] = 5 := by
    simp [np_mean]
    norm_num
  have hstd : np_std [5, 5, 5, 5] = 0 := by
    simp [np_std, hmean]
  refine ⟨?_, ?_, hmean, hstd, ?_, ?_⟩
  · simp [aggregateMeans]
  · simp [aggregateStds]
  · simp [aggregateMeans, List.lookup, hmean]
  · simp [aggregateStds, List.lookup, hstd]

/-- The inputs one invocation of `main` consumes: the wrapped explainer, the
test dataset, and the randomness stream feeding its `eval_stability_2`
calls. -/
structure Env where
  expl : Explainer
  dataset : ℕ → Vec
  stream : ℕ → ℕ → ℕ → ℚ

/-- The triple `(dist_dict, dist_dict_2, noises)` that `main` returns
(line 288), built by sweeping `np.arange(0, 0.21, 0.02)`. -/
noncomputable def mainReturn (e : Env) :
    List (ℚ × List ℝ) × List (ℚ × List ℝ) × List ℚ :=
  ((noiseSweep e.expl e.dataset e.stream noisesMain).1,
   (noiseSweep e.expl e.dataset e.stream noisesMain).2,
   noisesMain)

/-- The three histogram pools `main` produces before the sweep
(lines 275-277), in call order. -/
def mainHists (e : Env) : List (List ℚ) :=
  [(plot_distribution_h e.expl e.dataset ("theta(x)h(x)")).1,
   (plot_distribution_h e.expl e.dataset ("theta(x)")).1,
   (plot_distribution_h e.expl e.dataset ("h(x)")).1]

/-- The `__main__` block (lines 296-299) invokes `main()` twice in
succession; `envs n` is the environment consumed by invocation `n`.  The
trace lists what each invocation computes, in order. -/
noncomputable def scriptRuns (envs : ℕ → Env) :
    List ((List (List ℚ)) × (List (ℚ × List ℝ) × List (ℚ × List ℝ) × List ℚ)) :=
  [(mainHists (envs 0), mainReturn (envs 0)),
   (mainHists (envs 1), mainReturn (envs 1))]

/-- Lines 299-311: only the second invocation's returned dictionaries are
aggregated into the plotted per-scale means and standard deviations (first
pair: `our_method = False` variant; second pair: `our_method = True`). -/
noncomputable def scriptReport (envs : ℕ → Env) :
    (List ℝ × List ℝ) × (List ℝ × List ℝ) :=
  ((aggregateMeans (mainReturn (envs 1)).1 (mainReturn (envs 1)).2.2,
    aggregateStds (mainReturn (envs 1)).1 (mainReturn (envs 1)).2.2),
   (aggregateMeans (mainReturn (envs 1)).2.1 (mainReturn (envs 1)).2.2,
    aggregateStds (mainReturn (envs 1)).2.1 (mainReturn (envs 1)).2.2))

/-- C9: the `__main__` block runs the whole pipeline twice — each run
produces the three histogram pools and the full sweep over all 11 scales for
both variants — and the report aggregates only the second invocation's
dictionaries: the first invocation's return value never influences the
report. -/
theorem script_runs_main_twice (envs envs2 : ℕ → Env) (h : envs 1 = envs2 1) :
    (scriptRuns envs).length = 2
    ∧ scriptRuns envs =
        [(mainHists (envs 0), mainReturn (envs 0)),
         (mainHists (envs 1), mainReturn (envs 1))]
    ∧ (mainHists (envs 0)).length = 3
    ∧ noisesMain.length = 11
    ∧ mainReturn (envs 0) =
        ((noiseSweep (envs 0).expl (envs 0).dataset (envs 0).stream noisesMain).1,
         (noiseSweep (envs 0).expl (envs 0).dataset (envs 0).stream noisesMain).2,
         noisesMain)
    ∧ ((noiseSweep (envs 0).expl (envs 0).dataset (envs 0).stream noisesMain).1).map
        Prod.fst = noisesMain
    ∧ ((noiseSweep (envs 0).expl (envs 0).dataset (envs 0).stream noisesMain).2).map
        Prod.fst = noisesMain
    ∧ scriptReport envs = scriptReport envs2 := by
  refine ⟨rfl, rfl, rfl, noisesMain_length, rfl,
    (noiseSweep_keys (envs 0).expl (envs 0).dataset (envs 0).stream noisesMain).1,
    (noiseSweep_keys (envs 0).expl (envs 0).dataset (envs 0).stream noisesMain).2,
    ?_⟩
  simp only [scriptReport, h]

/-- A concrete environment for instantiating script-level theorems. -/
def wEnv : Env := ⟨wExpl, wData, wStream⟩

/-- Witness for C9 at concrete inputs. -/
theorem script_runs_main_twice_witness :
    (fun _ : ℕ => wEnv) 1 = (fun _ : ℕ => wEnv) 1
    ∧ (scriptRuns (fun _ => wEnv)).length = 2
    ∧ noisesMain.length = 11
    ∧ scriptReport (fun _ => wEnv) = scriptReport (fun _ => wEnv) :=
  ⟨rfl,
    (script_runs_main_twice (fun _ => wEnv) (fun _ => wEnv) rfl).1,
    (script_runs_main_twice (fun _ => wEnv) (fun _ => wEnv) rfl).2.2.2.1,
    (script_runs_main_twice (fun _ => wEnv) (fun _ => wEnv) rfl).2.2.2.2.2.2.2⟩

end SENN
